import Mathlib

/-!
Verification of the veracity-hub repository: the error-normalizer /
validation module and the `verify-news` serverless handler, shallowly
embedded in Lean.  Strings are modelled by Lean `String`, JS objects with
optional fields by structures of `Option` fields, and exceptions by
`Except`.
-/

/-! ## JS string primitives used by the source -/

/-- The whitespace set matched by JavaScript `\s` and removed by
`String.prototype.trim` (WhiteSpace ∪ LineTerminator). -/
def isJsWhitespace (c : Char) : Bool :=
  c.toNat ∈ [9, 10, 11, 12, 13, 32, 160, 0x1680,
    0x2000, 0x2001, 0x2002, 0x2003, 0x2004, 0x2005, 0x2006, 0x2007,
    0x2008, 0x2009, 0x200A, 0x2028, 0x2029, 0x202F, 0x205F, 0x3000, 0xFEFF]

/-- JavaScript `String.prototype.trim`. -/
def jsTrim (s : String) : String :=
  ⟨((s.data.dropWhile isJsWhitespace).reverse.dropWhile isJsWhitespace).reverse⟩

/-- JavaScript `String.prototype.toLowerCase` (ASCII range, which is all the
source's patterns need). -/
def jsToLower (s : String) : String :=
  ⟨s.data.map Char.toLower⟩

/-- JavaScript `hay.includes(needle)`: substring containment. -/
def jsIncludes (hay needle : String) : Bool :=
  hay.data.tails.any (fun t => needle.data.isPrefixOf t)

/-- JavaScript `a || b` on a possibly-absent string: the string if present
and truthy (non-empty), otherwise `b`. -/
def truthyOrElse (a : Option String) (b : String) : String :=
  match a with
  | some s => if s = "" then b else s
  | none => b

/-! ## Error normalizer (src/unnamed/part_000) -/

/-- The `ErrorInput` shape: an opaque error value whose `code`,
`error_code` and `message` fields may each be absent. -/
structure ErrorInput where
  code : Option String
  error_code : Option String
  message : Option String
deriving DecidableEq, Repr

/-- JS property lookup on a string-literal record: first key match wins,
case-sensitive. -/
def mapLookup : List (String × String) → String → Option String
  | [], _ => none
  | (k, v) :: rest, key => if key = k then some v else mapLookup rest key

/-- The 11-entry Supabase auth error-code table. -/
def authErrorMap : List (String × String) :=
  [("invalid_credentials", "Invalid email or password"),
   ("invalid_login_credentials", "Invalid email or password"),
   ("email_not_confirmed", "Please verify your email address"),
   ("user_already_exists", "An account with this email already exists"),
   ("email_already_exists", "An account with this email already exists"),
   ("weak_password", "Password must be stronger"),
   ("user_not_found", "No account found with this email"),
   ("over_request_rate_limit", "Too many attempts. Please try again later"),
   ("signup_disabled", "Sign up is currently disabled"),
   ("invalid_email", "Please enter a valid email address"),
   ("email_address_invalid", "Please enter a valid email address")]

/-- The 5-entry Postgres error-code table. -/
def databaseErrorMap : List (String × String) :=
  [("23505", "This record already exists"),
   ("23503", "This operation cannot be completed due to related data"),
   ("23514", "The provided data does not meet the requirements"),
   ("42501", "You do not have permission to perform this action"),
   ("PGRST116", "Record not found")]

/-- The lookup chain of `getUserFriendlyError` (source lines 37–72),
applied to the already-extracted `errorCode` and `errorMessage`: the auth
table, then the database table, then the five case-insensitive message
substring patterns, then the generic fallback. -/
def lookupChain (errorCode errorMessage : String) : String :=
  match mapLookup authErrorMap errorCode with
    | some m => m
    | none =>
    match mapLookup databaseErrorMap errorCode with
    | some m => m
    | none =>
    if jsIncludes (jsToLower errorMessage) "invalid login credentials" then
      "Invalid email or password"
    else if jsIncludes (jsToLower errorMessage) "email not confirmed" then
      "Please verify your email address"
    else if jsIncludes (jsToLower errorMessage) "already registered"
        || jsIncludes (jsToLower errorMessage) "already exists" then
      "An account with this email already exists"
    else if jsIncludes (jsToLower errorMessage) "network"
        || jsIncludes (jsToLower errorMessage) "fetch" then
      "Network error. Please check your connection and try again."
    else if jsIncludes (jsToLower errorMessage) "timeout" then
      "Request timed out. Please try again."
    else
      "An error occurred. Please try again later."

/-- `getUserFriendlyError` from the source.  The input is `none` for a
JS absent/null error value.  The code extraction uses JS `||`
(`error.code || error.error_code || ''`), i.e. an empty-string `code`
field falls through to `error_code`; then the lookup chain runs. -/
def getUserFriendlyError (error : Option ErrorInput) : String :=
  match error with
  | none => "An unexpected error occurred. Please try again."
  | some e =>
    lookupChain (truthyOrElse e.code (truthyOrElse e.error_code ""))
      (truthyOrElse e.message "")

/-! ## Validation helpers (src/unnamed/part_000) -/

/-- A validator outcome `\x7bvalid: bool, error?: string\x7d`. -/
structure ValidationResult where
  valid : Bool
  error : Option String
deriving DecidableEq, Repr

namespace validation

def maxTagLength : Nat := 50
def maxProfileNameLength : Nat := 100
def maxClaimLength : Nat := 5000

/-- A character admitted by the tag regex character class
`[a-zA-Z0-9\s\-_]`. -/
def isTagChar (c : Char) : Bool :=
  c.isAlpha || c.isDigit || isJsWhitespace c || c = '-' || c = '_'

/-- The anchored regex test `/^[a-zA-Z0-9\s\-_]+$/.test s`: at least one
character, all from the class. -/
def tagPattern (s : String) : Bool :=
  !s.isEmpty && s.data.all isTagChar

def validateTag (tag : String) : ValidationResult :=
  let trimmed := jsTrim tag
  if trimmed = "" then
    ⟨false, some "Tag cannot be empty"⟩
  else if trimmed.length > maxTagLength then
    ⟨false, some "Tag must be 50 characters or less"⟩
  else if !tagPattern trimmed then
    ⟨false, some "Tags can only contain letters, numbers, spaces, hyphens, and underscores"⟩
  else
    ⟨true, none⟩

def validateProfileName (name : String) : ValidationResult :=
  if name.length > maxProfileNameLength then
    ⟨false, some "Name must be 100 characters or less"⟩
  else
    ⟨true, none⟩

def validateClaim (claim : String) : ValidationResult :=
  let trimmed := jsTrim claim
  if trimmed = "" then
    ⟨false, some "Please enter a news claim to verify"⟩
  else if trimmed.length > maxClaimLength then
    ⟨false, some "Claim must be 5000 characters or less"⟩
  else
    ⟨true, none⟩

end validation

/-! ## Claim verification handler (src/supabase/functions/verify-news/index.ts) -/

/-- A thrown JS `Error`: its `message` and its (runtime-dependent)
`stack`. -/
structure ThrownErr where
  message : String
  stack : Option String
deriving DecidableEq, Repr

instance {ε α : Type} [DecidableEq ε] [DecidableEq α] : DecidableEq (Except ε α) :=
  fun x y =>
    match x, y with
    | .ok a, .ok b =>
      if h : a = b then isTrue (by rw [h]) else
        isFalse (by intro hh; cases hh; exact h rfl)
    | .ok _, .error _ => isFalse (by intro hh; cases hh)
    | .error _, .ok _ => isFalse (by intro hh; cases hh)
    | .error e, .error f =>
      if h : e = f then isTrue (by rw [h]) else
        isFalse (by intro hh; cases hh; exact h rfl)

/-- The JSON value found in the request body's `claim` field: a string,
or some non-string value (whose further shape the handler never
inspects). -/
inductive JsonValue where
  | str (s : String)
  | nonString
deriving DecidableEq, Repr

/-- An incoming request: its method, and the outcome of `req.json()`
projected to the `claim` field (`Except.error` = the body was not valid
JSON and `req.json()` threw; `none` = no `claim` field). -/
structure NewsRequest where
  method : String
  body : Except ThrownErr (Option JsonValue)
deriving DecidableEq, Repr

/-- The parsed tool-call arguments (`JSON.parse(toolCall.function.arguments)`)
projected to the three fields the handler reads; each may be absent. -/
structure Verification where
  verdict : Option String
  confidence : Option Int
  reasoning : Option String
deriving DecidableEq, Repr

/-- `toolCall.function`: its `arguments` string, represented by the
outcome of `JSON.parse` on it (`Except.error` = the parse threw). -/
structure ToolCallFunction where
  arguments : Except ThrownErr Verification
deriving DecidableEq, Repr

structure ToolCall where
  function : ToolCallFunction
deriving DecidableEq, Repr

structure UpstreamMessage where
  tool_calls : Option (List ToolCall)
deriving DecidableEq, Repr

structure UpstreamChoice where
  message : Option UpstreamMessage
deriving DecidableEq, Repr

/-- The decoded upstream JSON (`await response.json()`). -/
structure AIResult where
  choices : Option (List UpstreamChoice)
deriving DecidableEq, Repr

/-- An upstream HTTP response: status, `await response.text()`, and the
outcome of `await response.json()`. -/
structure UpstreamResponse where
  status : Nat
  bodyText : String
  jsonBody : Except ThrownErr AIResult
deriving DecidableEq, Repr

/-- The outcome of the single `fetch` to the AI gateway: the promise
rejected (network failure), or an HTTP response arrived. -/
inductive FetchOutcome where
  | fetchError (e : ThrownErr)
  | success (r : UpstreamResponse)
deriving DecidableEq, Repr

/-- The JSON body of a handler response, as serialized by
`JSON.stringify` (fields holding `undefined` are dropped, hence the
`Option` fields of the success shape). -/
inductive ResponseBody where
  | empty
  | errorOnly (error : String)
  | errorDetails (error : String) (details : Option String)
  | success (claim : String) (verdict : Option String) (confidence : Option Int)
      (reasoning : Option String) (timestamp : String)
deriving DecidableEq, Repr

structure HandlerResponse where
  status : Nat
  headers : List (String × String)
  body : ResponseBody
deriving DecidableEq, Repr

def corsHeaders : List (String × String) :=
  [("Access-Control-Allow-Origin", "*"),
   ("Access-Control-Allow-Headers", "authorization, x-client-info, apikey, content-type")]

/-- The headers used on every non-preflight response:
`\x7b...corsHeaders, "Content-Type": "application/json"\x7d`. -/
def jsonHeaders : List (String × String) :=
  corsHeaders ++ [("Content-Type", "application/json")]

/-- `Response.ok`: status in the 2xx range. -/
def responseOk (status : Nat) : Bool :=
  200 ≤ status && status < 300

/-- `result.choices?.[0]?.message?.tool_calls?.[0]`. -/
def firstToolCall (result : AIResult) : Option ToolCall :=
  (((result.choices.bind List.head?).bind UpstreamChoice.message).bind
    UpstreamMessage.tool_calls).bind List.head?

/-- The body of the `try` block of the handler, after the `OPTIONS`
branch.  `apiKey` is `Deno.env.get("LOVABLE_API_KEY")`, `fetched` the
outcome of the single upstream `fetch`, `nowIso` the string
`new Date().toISOString()` produces, and `mkError` models
`new Error(msg)` (so `(mkError m).message = m` at the runtime).
`Except.error` is an exception escaping the `try` block. -/
def verifyNewsInner (req : NewsRequest) (apiKey : Option String)
    (fetched : FetchOutcome) (nowIso : String) (mkError : String → ThrownErr) :
    Except ThrownErr HandlerResponse :=
  match req.body with
  | .error e => .error e
  | .ok claimField =>
    match claimField with
    | some (.str claim) =>
      if claim = "" then
        -- "" is falsy, so `!claim` rejects the empty string with a 400.
        .ok ⟨400, jsonHeaders, .errorOnly "Missing or invalid 'claim' field"⟩
      else
        match apiKey with
        | none => .error (mkError "LOVABLE_API_KEY is not configured")
        | some key =>
          -- `if (!LOVABLE_API_KEY)` is a JS truthiness check: an env
          -- variable set to the empty string also throws.
          if key = "" then
            .error (mkError "LOVABLE_API_KEY is not configured")
          else
          match fetched with
          | .fetchError e => .error e
          | .success resp =>
            if !responseOk resp.status then
              if resp.status = 429 then
                .ok ⟨429, jsonHeaders, .errorOnly "Rate limit exceeded. Please try again later."⟩
              else if resp.status = 402 then
                .ok ⟨402, jsonHeaders,
                  .errorOnly "Payment required. Please add credits to your Lovable AI workspace."⟩
              else
                .ok ⟨500, jsonHeaders, .errorDetails "AI gateway error" (some resp.bodyText)⟩
            else
              match resp.jsonBody with
              | .error e => .error e
              | .ok result =>
                match firstToolCall result with
                | none => .error (mkError "No tool call in AI response")
                | some toolCall =>
                  match toolCall.function.arguments with
                  | .error e => .error e
                  | .ok verification =>
                    -- `new Response` without a status defaults to 200.
                    .ok ⟨200, jsonHeaders,
                      .success claim verification.verdict verification.confidence
                        verification.reasoning nowIso⟩
    | _ =>
      .ok ⟨400, jsonHeaders, .errorOnly "Missing or invalid 'claim' field"⟩

/-- The whole `serve` handler: the `OPTIONS` preflight branch, then the
`try` body with its single top-level `catch`. -/
def verifyNews (req : NewsRequest) (apiKey : Option String)
    (fetched : FetchOutcome) (nowIso : String) (mkError : String → ThrownErr) :
    HandlerResponse :=
  if req.method = "OPTIONS" then
    ⟨200, corsHeaders, .empty⟩
  else
    match verifyNewsInner req apiKey fetched nowIso mkError with
    | .ok r => r
    | .error e => ⟨500, jsonHeaders, .errorDetails e.message e.stack⟩

/-- The `confidence` property of the `verify_claim` tool schema sent in
the outbound request body (source lines 58–63): a number constrained to
`minimum` 0, `maximum` 100. -/
structure NumberSchema where
  minimum : Nat
  maximum : Nat
deriving DecidableEq, Repr

def verifyClaimConfidenceSchema : NumberSchema :=
  { minimum := 0, maximum := 100 }

/-- Shape check for the 24-character timestamp format produced by
`Date.prototype.toISOString`, `YYYY-MM-DDTHH:MM:SS.mmmZ` — an ISO-8601
extended-format string. -/
def isIso8601 (s : String) : Bool :=
  match s.data with
  | [y1, y2, y3, y4, h1, mo1, mo2, h2, d1, d2, t, hh1, hh2, c1, mi1, mi2, c2,
     s1, s2, p, ms1, ms2, ms3, z] =>
    [y1, y2, y3, y4, mo1, mo2, d1, d2, hh1, hh2, mi1, mi2, s1, s2, ms1, ms2,
      ms3].all Char.isDigit
      && h1 = '-' && h2 = '-' && t = 'T' && c1 = ':' && c2 = ':' && p = '.'
      && z = 'Z'
  | _ => false

/-! ## Theorems about the validation helpers -/

theorem tagPattern_eq_all {s : String} (h : s ≠ "") :
    validation.tagPattern s = s.data.all validation.isTagChar := by
  have hne : s.isEmpty = false := by
    cases he : s.isEmpty
    · rfl
    · exact absurd ((String.isEmpty_iff s).mp he) h
  simp [validation.tagPattern, hne]

/-- C5: `validateTag` trims its input; the trimmed value empty yields
invalid with "Tag cannot be empty"; trimmed length over 50 yields invalid
with the length error; a trimmed value not consisting solely of letters,
digits, whitespace, hyphens and underscores yields invalid with the
pattern error; otherwise valid.  All three checks read the trimmed
value. -/
theorem validateTag_behavior (tag : String) :
    (jsTrim tag = "" →
      validation.validateTag tag = ⟨false, some "Tag cannot be empty"⟩) ∧
    (jsTrim tag ≠ "" → 50 < (jsTrim tag).length →
      validation.validateTag tag = ⟨false, some "Tag must be 50 characters or less"⟩) ∧
    (jsTrim tag ≠ "" → (jsTrim tag).length ≤ 50 →
      ¬((jsTrim tag).data.all validation.isTagChar = true) →
      validation.validateTag tag =
        ⟨false, some "Tags can only contain letters, numbers, spaces, hyphens, and underscores"⟩) ∧
    (jsTrim tag ≠ "" → (jsTrim tag).length ≤ 50 →
      (jsTrim tag).data.all validation.isTagChar = true →
      validation.validateTag tag = ⟨true, none⟩) := by
  refine ⟨?_, ?_, ?_, ?_⟩ <;> intro h1
  · simp only [validation.validateTag]
    rw [if_pos h1]
  · intro h2
    simp only [validation.validateTag, validation.maxTagLength]
    rw [if_neg h1, if_pos (by omega)]
  · intro h2 h3
    have hp := tagPattern_eq_all h1
    have h4 : (jsTrim tag).data.all validation.isTagChar = false := by
      cases hb : (jsTrim tag).data.all validation.isTagChar
      · rfl
      · exact absurd hb h3
    simp only [validation.validateTag, validation.maxTagLength]
    rw [if_neg h1, if_neg (by omega), if_pos (by rw [hp, h4]; rfl)]
  · intro h2 h3
    have hp := tagPattern_eq_all h1
    simp only [validation.validateTag, validation.maxTagLength]
    rw [if_neg h1, if_neg (by omega), if_neg (by rw [hp, h3]; decide)]

theorem validateTag_behavior_witness :
    validation.validateTag "ok tag-1" = ⟨true, none⟩ :=
  (validateTag_behavior "ok tag-1").2.2.2 (by decide) (by decide) (by decide)

/-- C6: `validateClaim` trims its input; the trimmed value empty yields
invalid with "Please enter a news claim to verify"; trimmed length over
5000 yields invalid with the length error; otherwise valid. -/
theorem validateClaim_behavior (claim : String) :
    (jsTrim claim = "" →
      validation.validateClaim claim = ⟨false, some "Please enter a news claim to verify"⟩) ∧
    (jsTrim claim ≠ "" → 5000 < (jsTrim claim).length →
      validation.validateClaim claim = ⟨false, some "Claim must be 5000 characters or less"⟩) ∧
    (jsTrim claim ≠ "" → (jsTrim claim).length ≤ 5000 →
      validation.validateClaim claim = ⟨true, none⟩) := by
  refine ⟨?_, ?_, ?_⟩ <;> intro h1
  · simp only [validation.validateClaim]
    rw [if_pos h1]
  · intro h2
    simp only [validation.validateClaim, validation.maxClaimLength]
    rw [if_neg h1, if_pos (by omega)]
  · intro h2
    simp only [validation.validateClaim, validation.maxClaimLength]
    rw [if_neg h1, if_neg (by omega)]

theorem validateClaim_behavior_witness :
    validation.validateClaim "Valid claim" = ⟨true, none⟩ :=
  (validateClaim_behavior "Valid claim").2.2 (by decide) (by decide)

/-! ## Theorems about the error normalizer -/

/-- Transcription of claim C2's extraction wording: nullish coalescing,
`code = error.code ?? error.error_code ?? ""` — a present-but-empty
`code` field does NOT fall through to `error_code`. -/
def getUserFriendlyErrorClaimed (error : Option ErrorInput) : String :=
  match error with
  | none => "An unexpected error occurred. Please try again."
  | some e =>
    lookupChain (e.code.getD (e.error_code.getD "")) (e.message.getD "")

/-- Extraction per the amended claim: the code is the first of
`error.code`, `error.error_code` that is present and non-empty, else the
empty string (JS `||` on the two optional fields). -/
def firstTruthyCode (e : ErrorInput) : String :=
  match e.code with
  | some s =>
    if s ≠ "" then s else
      match e.error_code with
      | some t => if t ≠ "" then t else ""
      | none => ""
  | none =>
    match e.error_code with
    | some t => if t ≠ "" then t else ""
    | none => ""

/-- Transcription of claim C2 as amended: same lookup order, but the
code extraction keeps the first present *and non-empty* of `error.code`,
`error.error_code`. -/
def getUserFriendlyErrorAmended (error : Option ErrorInput) : String :=
  match error with
  | none => "An unexpected error occurred. Please try again."
  | some e =>
    lookupChain (firstTruthyCode e) (e.message.getD "")

theorem truthyOrElse_emptyDefault (a : Option String) :
    truthyOrElse a "" = a.getD "" := by
  cases a with
  | none => rfl
  | some s =>
    by_cases hs : s = "" <;> simp [truthyOrElse, hs]

theorem truthyCode_eq_firstTruthyCode (e : ErrorInput) :
    truthyOrElse e.code (truthyOrElse e.error_code "") = firstTruthyCode e := by
  obtain ⟨c, ec, m⟩ := e
  cases c <;> cases ec <;>
    simp only [truthyOrElse, firstTruthyCode] <;>
    split_ifs <;> simp_all

/-- C2 counterexample: on `\x7bcode: "", error_code: "23505"\x7d` the source
(JS `||`) lets the empty `code` fall through to `error_code` and answers
from the database table, while the claim's `??` extraction keeps the
empty code and reaches the generic fallback. -/
theorem getUserFriendlyError_code_extraction_cex :
    getUserFriendlyError (some ⟨some "", some "23505", none⟩) =
        "This record already exists" ∧
      getUserFriendlyErrorClaimed (some ⟨some "", some "23505", none⟩) =
        "An error occurred. Please try again later." := by
  exact ⟨rfl, rfl⟩

/-- C2 as amended: `getUserFriendlyError` behaves exactly as the claim
describes — absent/null input gives the "unexpected" fallback, then the
auth table, database table, five message patterns and generic fallback
in order — except that the code extraction is `||`-style: the first
present and non-empty of `code`, `error_code`, else `""`. -/
theorem getUserFriendlyError_lookup_order (e : Option ErrorInput) :
    getUserFriendlyError e = getUserFriendlyErrorAmended e := by
  cases e with
  | none => rfl
  | some err =>
    simp only [getUserFriendlyError, getUserFriendlyErrorAmended]
    rw [truthyCode_eq_firstTruthyCode, truthyOrElse_emptyDefault]

/-- The closed set of user-facing strings the normalizer can produce. -/
def canonicalMessages : List String :=
  ["An unexpected error occurred. Please try again.",
   "Invalid email or password",
   "Please verify your email address",
   "An account with this email already exists",
   "Password must be stronger",
   "No account found with this email",
   "Too many attempts. Please try again later",
   "Sign up is currently disabled",
   "Please enter a valid email address",
   "This record already exists",
   "This operation cannot be completed due to related data",
   "The provided data does not meet the requirements",
   "You do not have permission to perform this action",
   "Record not found",
   "Network error. Please check your connection and try again.",
   "Request timed out. Please try again.",
   "An error occurred. Please try again later."]

theorem mapLookup_mem (l : List (String × String)) (k v : String)
    (h : mapLookup l k = some v) : v ∈ l.map Prod.snd := by
  induction l with
  | nil => simp [mapLookup] at h
  | cons p rest ih =>
    obtain ⟨pk, pv⟩ := p
    simp only [mapLookup] at h
    by_cases hk : k = pk
    · rw [if_pos hk] at h
      cases h
      simp
    · rw [if_neg hk] at h
      simp only [List.map_cons, List.mem_cons]
      exact Or.inr (ih h)

theorem lookupChain_mem (code message : String) :
    lookupChain code message ∈ canonicalMessages := by
  unfold lookupChain
  cases hA : mapLookup authErrorMap code with
  | some m =>
    have h1 := mapLookup_mem _ _ _ hA
    have h2 : ∀ v ∈ authErrorMap.map Prod.snd, v ∈ canonicalMessages := by decide
    exact h2 m h1
  | none =>
    cases hD : mapLookup databaseErrorMap code with
    | some m =>
      have h1 := mapLookup_mem _ _ _ hD
      have h2 : ∀ v ∈ databaseErrorMap.map Prod.snd, v ∈ canonicalMessages := by
        decide
      exact h2 m h1
    | none =>
      split_ifs <;> decide

/-- C3 counterexample: an input whose raw `message` happens to equal the
generic fallback string is echoed back verbatim, so "never equals the
raw message field" fails as stated. -/
theorem getUserFriendlyError_echo_cex :
    getUserFriendlyError
        (some ⟨none, none, some "An error occurred. Please try again later."⟩) =
      "An error occurred. Please try again later." := by
  exact rfl

/-- C3 as amended: `getUserFriendlyError` never returns the empty
string, always returns one of the 17 canonical user-facing strings, and
therefore never echoes a raw input string back unless that string is
itself one of the canonical messages. -/
theorem getUserFriendlyError_range (e : Option ErrorInput) :
    getUserFriendlyError e ≠ "" ∧
      getUserFriendlyError e ∈ canonicalMessages ∧
      ∀ s : String, s ∉ canonicalMessages → getUserFriendlyError e ≠ s := by
  have hmem : getUserFriendlyError e ∈ canonicalMessages := by
    cases e with
    | none => decide
    | some err => exact lookupChain_mem _ _
  refine ⟨?_, hmem, ?_⟩
  · intro h
    rw [h] at hmem
    exact absurd hmem (by decide)
  · intro s hs h
    rw [h] at hmem
    exact hs hmem

theorem getUserFriendlyError_range_witness :
    getUserFriendlyError (some ⟨some "boom_code", none, some "boom detail"⟩) ≠
      "boom detail" :=
  (getUserFriendlyError_range
      (some ⟨some "boom_code", none, some "boom detail"⟩)).2.2
    "boom detail" (by decide)

/-! ## Theorems about the claim verification handler -/

/-- C10: a request body whose `claim` field is present, of string type,
and equal to `""` is rejected by the falsy check with the same 400
response as a missing or non-string claim.  The response does not depend
on the API key or on the fetch outcome, so no upstream call is
observable. -/
theorem verifyNews_empty_claim_400 (req : NewsRequest) (apiKey : Option String)
    (fetched : FetchOutcome) (nowIso : String) (mkError : String → ThrownErr)
    (hm : req.method ≠ "OPTIONS") (hb : req.body = .ok (some (.str ""))) :
    verifyNews req apiKey fetched nowIso mkError =
      ⟨400, jsonHeaders, .errorOnly "Missing or invalid 'claim' field"⟩ := by
  unfold verifyNews verifyNewsInner
  rw [if_neg hm, hb]
  rfl

theorem verifyNews_empty_claim_400_witness :
    verifyNews ⟨"POST", .ok (some (.str ""))⟩ none (.fetchError ⟨"net down", none⟩)
        "t" (fun m => ⟨m, none⟩) =
      ⟨400, jsonHeaders, .errorOnly "Missing or invalid 'claim' field"⟩ :=
  verifyNews_empty_claim_400 _ _ _ _ _ (by decide) rfl

/-- C1: with a non-empty string claim, a configured (truthy, i.e.
non-empty) key, a 2xx upstream reply whose first tool call's arguments
parse to all three fields, the handler answers 200 with the claim echoed
verbatim, the parsed verdict, confidence and reasoning, and the runtime
ISO-8601 timestamp. -/
theorem verifyNews_success_shape (req : NewsRequest) (apiKey : Option String)
    (resp : UpstreamResponse) (result : AIResult) (toolCall : ToolCall)
    (nowIso : String) (mkError : String → ThrownErr)
    (c k verdict reasoning : String) (confidence : Int)
    (hm : req.method ≠ "OPTIONS")
    (hb : req.body = .ok (some (.str c)))
    (hc : c ≠ "")
    (hk : apiKey = some k)
    (hknz : k ≠ "")
    (hok : responseOk resp.status = true)
    (hj : resp.jsonBody = .ok result)
    (ht : firstToolCall result = some toolCall)
    (ha : toolCall.function.arguments =
      .ok ⟨some verdict, some confidence, some reasoning⟩)
    (hiso : isIso8601 nowIso = true) :
    verifyNews req apiKey (.success resp) nowIso mkError =
      ⟨200, jsonHeaders,
        .success c (some verdict) (some confidence) (some reasoning) nowIso⟩ ∧
      isIso8601 nowIso = true := by
  refine ⟨?_, hiso⟩
  simp [verifyNews, verifyNewsInner, hm, hb, hc, hk, hknz, hok, hj, ht, ha]

theorem verifyNews_success_shape_witness :
    verifyNews ⟨"POST", .ok (some (.str "The sky is green"))⟩ (some "key")
        (.success ⟨200, "",
          .ok ⟨some [⟨some ⟨some [⟨⟨.ok ⟨some "False", some 95, some "Basic physics."⟩⟩⟩]⟩⟩]⟩⟩)
        "2026-10-11T00:00:00.000Z" (fun m => ⟨m, none⟩) =
      ⟨200, jsonHeaders,
        .success "The sky is green" (some "False") (some 95) (some "Basic physics.")
          "2026-10-11T00:00:00.000Z"⟩ ∧
      isIso8601 "2026-10-11T00:00:00.000Z" = true :=
  verifyNews_success_shape _ _ _ _ _ _ _ "The sky is green" "key" "False"
    "Basic physics." 95 (by decide) rfl (by decide) rfl (by decide) rfl rfl rfl rfl
    (by decide)

/-- C4: when the upstream reply is not 2xx — 429 maps to a fixed 429
rate-limit message ignoring the upstream body, 402 to a fixed 402
payment message, and anything else to 500 with
`\x7berror: "AI gateway error", details: <raw upstream body text>\x7d`. -/
theorem verifyNews_upstream_error_mapping (req : NewsRequest)
    (apiKey : Option String) (resp : UpstreamResponse) (nowIso : String)
    (mkError : String → ThrownErr) (c k : String)
    (hm : req.method ≠ "OPTIONS")
    (hb : req.body = .ok (some (.str c)))
    (hc : c ≠ "")
    (hk : apiKey = some k)
    (hknz : k ≠ "")
    (hnok : responseOk resp.status = false) :
    (resp.status = 429 →
      verifyNews req apiKey (.success resp) nowIso mkError =
        ⟨429, jsonHeaders, .errorOnly "Rate limit exceeded. Please try again later."⟩) ∧
    (resp.status = 402 →
      verifyNews req apiKey (.success resp) nowIso mkError =
        ⟨402, jsonHeaders,
          .errorOnly "Payment required. Please add credits to your Lovable AI workspace."⟩) ∧
    (resp.status ≠ 429 → resp.status ≠ 402 →
      verifyNews req apiKey (.success resp) nowIso mkError =
        ⟨500, jsonHeaders, .errorDetails "AI gateway error" (some resp.bodyText)⟩) := by
  refine ⟨?_, ?_, ?_⟩
  · intro h429
    rw [h429] at hnok
    simp [verifyNews, verifyNewsInner, hm, hb, hc, hk, hknz, hnok, h429]
  · intro h402
    have h429 : resp.status ≠ 429 := by omega
    rw [h402] at hnok
    simp [verifyNews, verifyNewsInner, hm, hb, hc, hk, hknz, hnok, h402, h429]
  · intro h429 h402
    simp [verifyNews, verifyNewsInner, hm, hb, hc, hk, hknz, hnok, h429, h402]

theorem verifyNews_upstream_error_mapping_witness :
    verifyNews ⟨"POST", .ok (some (.str "c"))⟩ (some "key")
        (.success ⟨429, "any body at all", .error ⟨"unused", none⟩⟩) "t"
        (fun m => ⟨m, none⟩) =
      ⟨429, jsonHeaders, .errorOnly "Rate limit exceeded. Please try again later."⟩ :=
  (verifyNews_upstream_error_mapping _ _ _ _ _ "c" "key" (by decide) rfl
    (by decide) rfl (by decide) (by decide)).1 rfl

/-- C7: every exception escaping the `try` body is caught once at the
outer boundary and becomes a 500 with the exception's message and stack;
in particular a 2xx upstream reply with no tool call in the first
choice's message yields a 500 whose error field is
"No tool call in AI response". -/
theorem verifyNews_catch_behavior (req : NewsRequest) (apiKey : Option String)
    (fetched : FetchOutcome) (nowIso : String) (mkError : String → ThrownErr)
    (hm : req.method ≠ "OPTIONS")
    (hmk : ∀ m, (mkError m).message = m) :
    (∀ e, verifyNewsInner req apiKey fetched nowIso mkError = .error e →
      verifyNews req apiKey fetched nowIso mkError =
        ⟨500, jsonHeaders, .errorDetails e.message e.stack⟩) ∧
    (∀ (c k : String) (resp : UpstreamResponse) (result : AIResult),
      req.body = .ok (some (.str c)) → c ≠ "" → apiKey = some k → k ≠ "" →
      fetched = .success resp → responseOk resp.status = true →
      resp.jsonBody = .ok result → firstToolCall result = none →
      verifyNews req apiKey fetched nowIso mkError =
        ⟨500, jsonHeaders,
          .errorDetails "No tool call in AI response"
            (mkError "No tool call in AI response").stack⟩) := by
  constructor
  · intro e he
    unfold verifyNews
    rw [if_neg hm, he]
  · intro c k resp result hb hc hk hknz hf hok hj ht
    have hinner : verifyNewsInner req apiKey fetched nowIso mkError =
        .error (mkError "No tool call in AI response") := by
      simp [verifyNewsInner, hb, hc, hk, hknz, hf, hok, hj, ht]
    unfold verifyNews
    rw [if_neg hm, hinner]
    show (⟨500, jsonHeaders,
        .errorDetails (mkError "No tool call in AI response").message
          (mkError "No tool call in AI response").stack⟩ : HandlerResponse) = _
    rw [hmk]

theorem verifyNews_catch_behavior_witness :
    verifyNews ⟨"POST", .ok (some (.str "c"))⟩ (some "key")
        (.success ⟨200, "", .ok ⟨some []⟩⟩) "t" (fun m => ⟨m, none⟩) =
      ⟨500, jsonHeaders, .errorDetails "No tool call in AI response" none⟩ :=
  (verifyNews_catch_behavior _ _ _ _ _ (by decide) (fun _ => rfl)).2
    "c" "key" _ _ rfl (by decide) rfl (by decide) rfl rfl rfl rfl

theorem verifyNewsInner_headers (req : NewsRequest) (apiKey : Option String)
    (fetched : FetchOutcome) (nowIso : String) (mkError : String → ThrownErr)
    (r : HandlerResponse)
    (h : verifyNewsInner req apiKey fetched nowIso mkError = .ok r) :
    r.headers = jsonHeaders := by
  unfold verifyNewsInner at h
  repeat' split at h
  all_goals cases h
  all_goals rfl

theorem verifyNews_headers_cases (req : NewsRequest) (apiKey : Option String)
    (fetched : FetchOutcome) (nowIso : String) (mkError : String → ThrownErr) :
    (verifyNews req apiKey fetched nowIso mkError).headers = corsHeaders ∨
      (verifyNews req apiKey fetched nowIso mkError).headers = jsonHeaders := by
  unfold verifyNews
  split
  · exact Or.inl rfl
  · cases hi : verifyNewsInner req apiKey fetched nowIso mkError with
    | ok r => exact Or.inr (verifyNewsInner_headers _ _ _ _ _ r hi)
    | error e => exact Or.inr rfl

/-- C8: every response, on every path, carries the two CORS headers, and
an `OPTIONS` request terminates immediately with an empty body and the
CORS headers only. -/
theorem verifyNews_cors_invariant (req : NewsRequest) (apiKey : Option String)
    (fetched : FetchOutcome) (nowIso : String) (mkError : String → ThrownErr) :
    ("Access-Control-Allow-Origin", "*") ∈
        (verifyNews req apiKey fetched nowIso mkError).headers ∧
      ("Access-Control-Allow-Headers",
          "authorization, x-client-info, apikey, content-type") ∈
        (verifyNews req apiKey fetched nowIso mkError).headers ∧
      verifyNews ⟨"OPTIONS", req.body⟩ apiKey fetched nowIso mkError =
        ⟨200, corsHeaders, .empty⟩ := by
  refine ⟨?_, ?_, rfl⟩ <;>
    obtain hcase | hcase :=
      verifyNews_headers_cases req apiKey fetched nowIso mkError <;>
    rw [hcase] <;> decide

/-- C9: the handler never re-validates the upstream confidence value:
any integer parsed from the tool-call arguments, in particular one
outside [0,100], is returned unchanged in the 200 body; the [0,100]
bound exists only as the schema constraint of the outbound request. -/
theorem verifyNews_confidence_passthrough (req : NewsRequest)
    (apiKey : Option String) (resp : UpstreamResponse) (result : AIResult)
    (toolCall : ToolCall) (nowIso : String) (mkError : String → ThrownErr)
    (c k verdict reasoning : String) (confidence : Int)
    (hm : req.method ≠ "OPTIONS")
    (hb : req.body = .ok (some (.str c)))
    (hc : c ≠ "")
    (hk : apiKey = some k)
    (hknz : k ≠ "")
    (hok : responseOk resp.status = true)
    (hj : resp.jsonBody = .ok result)
    (ht : firstToolCall result = some toolCall)
    (ha : toolCall.function.arguments =
      .ok ⟨some verdict, some confidence, some reasoning⟩) :
    (verifyNews req apiKey (.success resp) nowIso mkError).body =
        .success c (some verdict) (some confidence) (some reasoning) nowIso ∧
      verifyClaimConfidenceSchema = ⟨0, 100⟩ := by
  refine ⟨?_, rfl⟩
  simp [verifyNews, verifyNewsInner, hm, hb, hc, hk, hknz, hok, hj, ht, ha]

theorem verifyNews_confidence_passthrough_witness :
    (verifyNews ⟨"POST", .ok (some (.str "c"))⟩ (some "key")
        (.success ⟨200, "",
          .ok ⟨some [⟨some ⟨some [⟨⟨.ok ⟨some "True", some 150, some "r"⟩⟩⟩]⟩⟩]⟩⟩)
        "t" (fun m => ⟨m, none⟩)).body =
        .success "c" (some "True") (some 150) (some "r") "t" ∧
      verifyClaimConfidenceSchema = ⟨0, 100⟩ :=
  verifyNews_confidence_passthrough _ _ _ _ _ _ _ "c" "key" "True" "r" 150
    (by decide) rfl (by decide) rfl (by decide) rfl rfl rfl rfl
